import Mathlib

/-!
# Shallow embedding of the osPID firmware PID engine

This file embeds the PID control engine of the osPID firmware
(`src/unnamed/part_004`, the engine declared in
`src/osPID_Firmware/osPID_Engine.h`, plus the older variant
`src/osPID_Firmware/PID_v1.cpp`) and proves properties of it.

Modelling conventions:
* C `double` values are modelled as exact rationals (`ℚ`).  The numeric
  literals of the source (`0.001`, `0.05`, the 21-digit `CONST_PI`, the
  tuning-table entries) are all decimal literals, hence exact in `ℚ`.
* `ospDecimalValue<D>` fixed-point values are modelled by their raw integer
  magnitude (an `ℤ` scaled by `10^D`), as the header `ospDecimalValue.h` is
  not part of the sources; the conversions are modelled from the spec
  (see `makeDec1`/`makeDec3` below).
* `unsigned long` millisecond timestamps are modelled as `ℕ`; the C
  wraparound-tolerant unsigned subtraction `now - last` coincides with
  truncated `ℕ` subtraction for a monotone counter between wraps, which is
  how it is modelled here (no claim concerns counter wraparound).
* The preprocessor configuration is the one fixed by
  `src/osPID_Firmware/osPID_Engine.h` / `ospConfig.h`:
  `AUTOTUNE_AMIGOF_PI` defined, `AUTOTUNE_RELAY_BIAS` undefined,
  `USE_SIMULATOR` undefined (so `DEFAULT_LOOP_SAMPLE_TIME = 1000`).
* `PID::calculatePhaseLag` (only reachable for the AMIGOf method) computes
  `π - arctan-approx(ratio / sqrt(1 - ratio²))`, which is irrational; the
  step function is parameterized by an arbitrary function `pl` standing for
  it.  All theorems below concern the classical methods, for which the
  parameter is never consulted, so they hold for every `pl`.
* The engine object `myPID` is a global in the firmware
  (`src/unnamed/part_005` line 193), so its members are zero-initialized
  before the constructor body runs; `zeroState` models that.
-/

namespace OsPID

/-! ## Constants from osPID_Engine.h -/

def MANUAL : ℕ := 0
def AUTOMATIC : ℕ := 1
def DIRECT : ℕ := 0
def REVERSE : ℕ := 1

def AUTOTUNE_OFF : ℕ := 0
def AUTOTUNE_STEADY_STATE_AT_BASELINE : ℕ := 1
def AUTOTUNE_STEADY_STATE_AFTER_STEP_UP : ℕ := 2
def AUTOTUNE_RELAY_STEP_UP : ℕ := 4
def AUTOTUNE_RELAY_STEP_DOWN : ℕ := 8
def AUTOTUNE_CONVERGED : ℕ := 16
def AUTOTUNE_FAILED : ℕ := 128

def NOT_A_PEAK : ℕ := 0
def MINIMUM : ℕ := 1
def MAXIMUM : ℕ := 2

/-- Auto-tune method selectors (enum in osPID_Engine.h). -/
def ZIEGLER_NICHOLS_PI : ℕ := 0
def ZIEGLER_NICHOLS_PID : ℕ := 1
def NO_OVERSHOOT_PID : ℕ := 8
def AMIGOF_PI : ℕ := 9

/-- `5 * 60 * 1000` milliseconds: auto tune fails when waiting longer than
this between peaks. -/
def AUTOTUNE_MAX_WAIT : ℕ := 5 * 60 * 1000

def AUTOTUNE_PEAK_AMPLITUDE_TOLERANCE : ℚ := 5 / 100

/-- The source's rational literal for π (osPID_Engine.h line 136). -/
def CONST_PI : ℚ := 3.14159265358979323846

def CONST_SQRT2_DIV_2 : ℚ := 0.70710678118654752440

def DEFAULT_LOOP_SAMPLE_TIME : ℤ := 1000

/-! ## Fixed-point decimal modelling

`ospDecimalValue.h` is not among the sources.  Modelled from the spec:
a `FixedDecimal<D>` is "an integer magnitude representing `value / 10^D`";
"converting to/from a native floating type is the only lossy step".  The
rounding convention of the repository is round-half-away-from-zero, as
implemented by `coerceToDecimal` in `src/unnamed/part_007` (lines 207-235),
which we mirror exactly for rescaling and adopt for the double→decimal
conversion. -/

/-- Round a rational to the nearest integer, halves away from zero. -/
def roundHalfAway (x : ℚ) : ℤ :=
  if 0 ≤ x then ⌊x + 1 / 2⌋ else ⌈x - 1 / 2⌉

/-- Modelled from the spec: the lossy conversion `makeDecimal<1>(double)`
(header not in the sources), yielding the raw tenths magnitude. -/
def makeDec1 (x : ℚ) : ℤ := roundHalfAway (x * 10)

/-- Modelled from the spec: the lossy conversion `makeDecimal<3>(double)`
(header not in the sources), yielding the raw thousandths magnitude. -/
def makeDec3 (x : ℚ) : ℤ := roundHalfAway (x * 1000)

/-- C-style rounded division of a raw magnitude by `10^k`, mirroring
`coerceToDecimal` (src/unnamed/part_007): truncating division and then a
half-away-from-zero correction on the remainder. -/
def coerceDiv (val divisor : ℤ) : ℤ :=
  let quot := Int.tdiv val divisor
  let rem := Int.tmod val divisor
  if |rem| ≥ Int.tdiv divisor 2 then (if val < 0 then quot - 1 else quot + 1) else quot

/-- `((iMax + iMin) * (ospDecimalValue<3>){500}).rescale<3>()`: the raw dec-3
product with `0.500` has six decimals; rescaling back to three divides the
raw magnitude by `10^3` with the rounded division above. -/
def midRangeRaw (iMax iMin : ℤ) : ℤ := coerceDiv ((iMax + iMin) * 500) 1000

/-! ## Controller + tuner state (the members of class PID, osPID_Engine.h) -/

structure PIDState where
  /-- target of `myInput` (the firmware global `lastGoodInput`) -/
  input : ℚ
  /-- target of `myOutput` (the firmware global `output`) -/
  output : ℚ
  /-- target of `mySetpoint` (the firmware global `activeSetPoint`) -/
  activeSetPoint : ℚ
  dispKp : ℤ
  dispKi : ℤ
  dispKd : ℤ
  kp : ℚ
  ki : ℚ
  kd : ℚ
  controllerDirection : ℕ
  isTuning : Bool
  mode : ℕ
  lastTime : ℕ
  iTerm : ℚ
  lastInput : ℚ
  sampleTime : ℤ
  outMin : ℚ
  outMax : ℚ
  ATuneModeRemember : ℕ
  manualOutputRemember : ℤ
  oStep : ℚ
  noiseBand : ℚ
  nLookBack : ℕ
  controlType : ℕ
  state : ℕ
  setpoint : ℚ
  outputStart : ℚ
  workingNoiseBand : ℚ
  workingOstep : ℚ
  peakType : ℕ
  lastPeakTime : List ℕ
  lastPeaks : List ℚ
  peakCount : ℕ
  inputOffset : ℚ
  inputOffsetChange : ℤ
  lastInputs : List ℤ
  inputCount : ℕ
  Kp : ℚ
  Ti : ℚ
  Td : ℚ
  newWorkingNoiseBand : ℚ
  K_process : ℚ
  /-- firmware global `PGain` (part_005 line 144), written by completeAutoTune -/
  PGain : ℤ
  IGain : ℤ
  DGain : ℤ
  /-- firmware global `manualOutput` (raw tenths), written by stopAutoTune -/
  manualOutput : ℤ
  deriving DecidableEq

/-- Zero-initialized members, as for the global `myPID` object before its
constructor body runs. -/
def zeroState : PIDState where
  input := 0
  output := 0
  activeSetPoint := 0
  dispKp := 0
  dispKi := 0
  dispKd := 0
  kp := 0
  ki := 0
  kd := 0
  controllerDirection := 0
  isTuning := false
  mode := 0
  lastTime := 0
  iTerm := 0
  lastInput := 0
  sampleTime := 0
  outMin := 0
  outMax := 0
  ATuneModeRemember := 0
  manualOutputRemember := 0
  oStep := 0
  noiseBand := 0
  nLookBack := 0
  controlType := 0
  state := 0
  setpoint := 0
  outputStart := 0
  workingNoiseBand := 0
  workingOstep := 0
  peakType := 0
  lastPeakTime := List.replicate 5 0
  lastPeaks := List.replicate 5 0
  peakCount := 0
  inputOffset := 0
  inputOffsetChange := 0
  lastInputs := List.replicate 101 0
  inputCount := 0
  Kp := 0
  Ti := 0
  Td := 0
  newWorkingNoiseBand := 0
  K_process := 0
  PGain := 0
  IGain := 0
  DGain := 0
  manualOutput := 0

/-! ## PID methods (src/unnamed/part_004 lines 304-518) -/

/-- `PID::limit` applied to a value (part_004 lines 383-393). -/
def limit (s : PIDState) (v : ℚ) : ℚ :=
  if v > s.outMax then s.outMax else if v < s.outMin then s.outMin else v

/-- `PID::setTunings` (part_004 lines 400-426); the three arguments are raw
dec-3 magnitudes. -/
def setTunings (s : PIDState) (Kp Ki Kd : ℤ) : PIDState :=
  if Kp < 0 ∨ Ki < 0 ∨ Kd < 0 then s
  else
    let sampleTimeInSec : ℚ := (s.sampleTime : ℚ) * 0.001
    let kp : ℚ := (Kp : ℚ) / 1000
    let ki : ℚ := ((Ki : ℚ) / 1000) * sampleTimeInSec
    let kd : ℚ := ((Kd : ℚ) / 1000) / sampleTimeInSec
    if s.controllerDirection = REVERSE then
      { s with dispKp := Kp, dispKi := Ki, dispKd := Kd,
               kp := 0 - kp, ki := 0 - ki, kd := 0 - kd }
    else
      { s with dispKp := Kp, dispKi := Ki, dispKd := Kd,
               kp := kp, ki := ki, kd := kd }

/-- `PID::setSampleTime` (part_004 lines 431-440). -/
def setSampleTime (s : PIDState) (newSampleTime : ℤ) : PIDState :=
  if newSampleTime > 0 then
    let ratio : ℚ := (newSampleTime : ℚ) / (s.sampleTime : ℚ)
    { s with ki := s.ki * ratio, kd := s.kd / ratio, sampleTime := newSampleTime }
  else s

/-- `PID::setOutputLimits` (part_004 lines 450-464). -/
def setOutputLimits (s : PIDState) (mn mx : ℚ) : PIDState :=
  if mn ≥ mx then s
  else
    let s := { s with outMin := mn, outMax := mx }
    if s.mode = AUTOMATIC then
      { s with output := limit s s.output, iTerm := limit s s.iTerm }
    else s

/-- `PID::initialize` (part_004 lines 485-490): bumpless-transfer setup. -/
def initEngine (s : PIDState) : PIDState :=
  let s := { s with iTerm := s.output, lastInput := s.input }
  { s with iTerm := limit s s.iTerm }

/-- `PID::setMode` (part_004 lines 471-479). -/
def setMode (s : PIDState) (newMode : ℕ) : PIDState :=
  let s := if newMode ≠ s.mode then initEngine s else s
  { s with mode := newMode }

/-- `PID::setControllerDirection` (part_004 lines 498-507).  Note that the
assignment of `controllerDirection` sits inside the `if`. -/
def setControllerDirection (s : PIDState) (newDirection : ℕ) : PIDState :=
  if s.mode = AUTOMATIC ∧ newDirection ≠ s.controllerDirection then
    { s with kp := 0 - s.kp, ki := 0 - s.ki, kd := 0 - s.kd,
             controllerDirection := newDirection }
  else s

/-- `PID::PID` constructor body (part_004 lines 304-326), run on the
zero-initialized global with the pointer targets holding the given values.
`millisNow` is the value of `millis()` at construction. -/
def pidConstruct (input0 output0 setpoint0 : ℚ) (Kp Ki Kd : ℤ)
    (ControllerDirection : ℕ) (millisNow : ℕ) : PIDState :=
  let s := { zeroState with
             input := input0, output := output0, activeSetPoint := setpoint0,
             sampleTime := DEFAULT_LOOP_SAMPLE_TIME }
  let s := setTunings s Kp Ki Kd
  let s := { s with controllerDirection := ControllerDirection }
  { s with lastTime := millisNow - s.sampleTime.toNat, isTuning := false }

/-! ## Auto tuner (src/unnamed/part_004 lines 528-1263) -/

/-- `PID::zero` (part_004 lines 692-695): `x < 1e-10`.  Note the source does
not take an absolute value. -/
def zeroQ (x : ℚ) : Bool := x < 1 / 10 ^ 10

/-- `PID::getAtuneKp` (part_004 line 528). -/
def getAtuneKp (s : PIDState) : ℚ := s.Kp

/-- `PID::getAtuneKi` (part_004 line 533): `Kp / Ti`. -/
def getAtuneKi (s : PIDState) : ℚ := s.Kp / s.Ti

/-- `PID::getAtuneKd` (part_004 line 538): `Kp * Td`. -/
def getAtuneKd (s : PIDState) : ℚ := s.Kp * s.Td

/-- The PROGMEM tuning-rule table (part_004 lines 287-298): triples of
divisor bytes, indexed by the tuning-method selector. -/
def tuningRule : List (ℕ × ℕ × ℕ) :=
  [(44, 24, 0), (34, 40, 160), (64, 9, 0), (44, 9, 126), (66, 80, 0),
   (66, 88, 162), (28, 50, 133), (60, 40, 60), (100, 40, 60)]

def divisorByte (method idx : ℕ) : ℕ :=
  let row := tuningRule.getD method (0, 0, 0)
  if idx = 0 then row.1 else if idx = 1 then row.2.1 else row.2.2

/-- `Tuning::divisor` (osPID_Engine.h lines 40-43): the table byte times
`0.05`. -/
def divisor (method idx : ℕ) : ℚ := (divisorByte method idx : ℚ) * 0.05

/-- `Tuning::PI_controller` (osPID_Engine.h lines 35-38): a zero TD byte
marks a PI-only rule. -/
def PIController (method : ℕ) : Bool := divisorByte method 2 = 0

/-- `PID::setAtuneLookBackSec` (part_004 lines 573-584).  `nLookBack` is a
byte member, so the `int` quotient is reduced mod 256 by the assignment
before the cap at 100 is applied. -/
def lookBackN (value sampleTime : ℤ) : ℕ :=
  let value := if value < 1 then 1 else value
  let nb := Int.emod (Int.tdiv (value * 1000) sampleTime) 256
  (if nb > 100 then 100 else nb).toNat

/-- Initialization of the tuner working variables on the first step after
`startAutoTune` (part_004 lines 700-740). -/
def atuneInit (s : PIDState) (now : ℕ) : PIDState :=
  let s := { s with
    peakType := NOT_A_PEAK, inputCount := 0, peakCount := 0,
    lastPeakTime := s.lastPeakTime.set 0 now,
    setpoint := s.input, inputOffset := s.input, inputOffsetChange := 0,
    outputStart := s.output, workingNoiseBand := s.noiseBand,
    workingOstep := s.oStep, newWorkingNoiseBand := s.noiseBand }
  if s.controlType = AMIGOF_PI then
    { s with state := AUTOTUNE_STEADY_STATE_AT_BASELINE }
  else
    { s with state := AUTOTUNE_RELAY_STEP_UP }

/-- Relay switching with hysteresis (part_004 lines 753-769); on a switch the
working noise band is refreshed from `newWorkingNoiseBand` (the only content
of the `justChanged` block in this build configuration). -/
def atuneRelaySwitch (s : PIDState) : PIDState :=
  if s.state = AUTOTUNE_RELAY_STEP_UP ∧ s.input > s.setpoint + s.workingNoiseBand then
    { s with state := AUTOTUNE_RELAY_STEP_DOWN, workingNoiseBand := s.newWorkingNoiseBand }
  else if s.state = AUTOTUNE_RELAY_STEP_DOWN ∧ s.input < s.setpoint - s.workingNoiseBand then
    { s with state := AUTOTUNE_RELAY_STEP_UP, workingNoiseBand := s.newWorkingNoiseBand }
  else s

/-- The relay output write (part_004 lines 866-885). -/
def atuneSetOutput (s : PIDState) : PIDState :=
  if s.state &&& (AUTOTUNE_STEADY_STATE_AFTER_STEP_UP ||| AUTOTUNE_RELAY_STEP_UP) > 0 then
    { s with output := s.outputStart + s.workingOstep }
  else if s.state = AUTOTUNE_RELAY_STEP_DOWN then
    { s with output := s.outputStart - s.workingOstep }
  else s

/-- The post-warmup window scan (part_004 lines 909-926): the max and min of
the `n` stored de-trended samples, and the shifted sample ring (each shifted
entry de-trended by `change`, slot 0 receiving the fresh sample). -/
def windowScan (l : List ℤ) (n : ℕ) (change val : ℤ) : List ℤ × ℤ × ℤ :=
  let iMax := (List.range n).foldl (fun m i => max m (l.getD i 0)) (l.getD 0 0)
  let iMin := (List.range n).foldl (fun m i => min m (l.getD i 0)) (l.getD 0 0)
  let shifted := (List.range l.length).map fun j =>
    if j = 0 then val - change
    else if j ≤ n then l.getD (j - 1) 0 - change
    else l.getD j 0
  (shifted, iMax, iMin)

/-- The AMIGOf steady-state blocks (part_004 lines 940-995); every branch of
the source block returns `false`, so only the state effect is produced. -/
def atuneSteady (s : PIDState) (iMax iMin : ℤ) : PIDState :=
  if ((iMax - iMin : ℤ) : ℚ) / 1000 ≤ 2 * s.workingNoiseBand then
    if s.state = AUTOTUNE_STEADY_STATE_AT_BASELINE then
      let lp0 := s.inputOffset + (s.inputOffsetChange : ℚ) / 1000
      { s with state := AUTOTUNE_STEADY_STATE_AFTER_STEP_UP,
               lastPeaks := s.lastPeaks.set 0 lp0,
               inputCount := 0, inputOffset := lp0 }
    else
      let kproc := (s.inputOffset + (s.inputOffsetChange : ℚ) / 1000 -
                    s.lastPeaks.getD 0 0) / s.workingOstep
      let s := { s with K_process := kproc }
      if zeroQ kproc then { s with state := AUTOTUNE_FAILED }
      else { s with state := AUTOTUNE_RELAY_STEP_DOWN }
  else s

/-- Shift slots 1..k of a five-slot most-recent-first history down by one
(the `for (i = k; i > 0; i--) a[i] = a[i-1]` idiom of part_004
lines 1034-1038). -/
def histShift {α : Type} (l : List α) (k : ℕ) (dflt : α) : List α :=
  (List.range l.length).map fun i =>
    if 1 ≤ i ∧ i ≤ k then l.getD (i - 1) dflt else l.getD i dflt

/-- Peak bookkeeping (part_004 lines 1000-1066): the peak-type change
detection, the history shift on a type change, and the slot-0 refresh on
every sample that ties the window extremum. -/
def atunePeaks (s : PIDState) (now : ℕ) (refVal : ℚ) (isMax isMin : Bool) :
    PIDState × Bool :=
  let justChanged :=
    if isMax then decide (s.peakType = MINIMUM)
    else if isMin then decide (s.peakType = MAXIMUM)
    else false
  let s := { s with peakType :=
    if isMax then MAXIMUM else if isMin then MINIMUM else s.peakType }
  let s :=
    if justChanged then
      let pc := (s.peakCount + 1) % 256
      let k := if pc > 4 then 4 else pc
      { s with peakCount := pc,
               lastPeakTime := histShift s.lastPeakTime k 0,
               lastPeaks := histShift s.lastPeaks k 0 }
    else s
  let s :=
    if isMax || isMin then
      { s with lastPeakTime := s.lastPeakTime.set 0 now,
               lastPeaks := s.lastPeaks.set 0 refVal }
    else s
  (s, justChanged)

/-- Amplitude statistics over the four most recent peaks (part_004 lines
1082-1097): the induced amplitude (mean of the three successive peak-to-peak
differences over six) and the absolute max/min of peaks 1..4. -/
def peakStats (peaks : List ℚ) : ℚ × ℚ × ℚ :=
  let r := [2, 3, 4].foldl
    (fun (acc : ℚ × ℚ × ℚ) (i : ℕ) =>
      let v := peaks.getD i 0
      (acc.1 + |v - peaks.getD (i - 1) 0|, max acc.2.1 v, min acc.2.2 v))
    (0, peaks.getD 1 0, peaks.getD 1 0)
  (r.1 / 6, r.2.1, r.2.2)

/-- Gain synthesis once the oscillation has converged (part_004 lines
1202-1262). -/
def atuneFinish (pl : ℚ → ℚ → ℚ) (s : PIDState) (inducedAmplitude : ℚ) :
    PIDState :=
  let Ku := (4 / CONST_PI) * (s.workingOstep / inducedAmplitude)
  let t1 := s.lastPeakTime.getD 1 0
  let t2 := s.lastPeakTime.getD 2 0
  let t3 := s.lastPeakTime.getD 3 0
  let t4 := s.lastPeakTime.getD 4 0
  let Pu : ℚ := (((t1 - t3) + (t2 - t4) : ℕ) : ℚ) / 2000
  if s.controlType = AMIGOF_PI then
    let kappa := (1 / Ku) / s.K_process
    let phaseLag := pl s.workingNoiseBand inducedAmplitude
    { s with
      Kp := ((2.50 - 0.92 * phaseLag) / (1 + (10.75 - 4.01 * phaseLag) * kappa)) * Ku,
      Ti := ((-3.05 + 1.72 * phaseLag) / (1 + (-6.10 + 3.44 * phaseLag) * kappa) ^ 2) * Pu,
      Td := 0 }
  else
    { s with
      Kp := Ku / divisor s.controlType 0,
      Ti := Pu / divisor s.controlType 1,
      Td := if PIController s.controlType then 0
            else Pu / divisor s.controlType 2 }

/-- The failure check (part_004 lines 1164-1185): terminate after 20 peaks
or too long a wait since `lastPeakTime[0]`.  Both conditions are evaluated
on the already-updated peak bookkeeping of the same invocation. -/
def atuneFailCheck (s : PIDState) (now : ℕ) : PIDState :=
  if now - s.lastPeakTime.getD 0 0 > AUTOTUNE_MAX_WAIT ∨ s.peakCount ≥ 20 then
    { s with state := AUTOTUNE_FAILED }
  else s

/-- Run termination (part_004 lines 1182-1200 and the tail): while neither
converged nor failed, keep going; otherwise park the output at
`outputStart`, and synthesize gains unless the run failed. -/
def atuneTerminal (pl : ℚ → ℚ → ℚ) (s : PIDState) (inducedAmplitude : ℚ) :
    PIDState × Bool :=
  if s.state &&& (AUTOTUNE_CONVERGED ||| AUTOTUNE_FAILED) = 0 then (s, false)
  else
    let s := { s with output := s.outputStart }
    if s.state = AUTOTUNE_FAILED then (s, true)
    else (atuneFinish pl s inducedAmplitude, true)

/-- One invocation of `PID::autoTune` (part_004 lines 697-1263) under the
build configuration fixed by the headers (`AUTOTUNE_AMIGOF_PI` defined,
`AUTOTUNE_RELAY_BIAS` undefined).  Returns the new state and the `done`
flag.  `pl` abstracts the transcendental `calculatePhaseLag`, applied to the
working noise band and the induced amplitude; the classical methods never
consult it.  The convergence test divides by `inducedAmplitude`; the guard
`inducedAmplitude ≠ 0` reproduces the C behaviour, where `0.0/0.0` is NaN
and the `<` comparison is then false. -/
def autoTune (pl : ℚ → ℚ → ℚ) (s0 : PIDState) : PIDState × Bool :=
  let now := s0.lastTime
  let s := if s0.state = AUTOTUNE_OFF then atuneInit s0 now else s0
  let refVal := s.input
  let s := atuneRelaySwitch s
  let s := atuneSetOutput s
  let s := { s with inputCount := (s.inputCount + 1) % 256 }
  if s.inputCount ≤ s.nLookBack then
    let stored := s.lastInputs.set (s.nLookBack - s.inputCount) (makeDec3 (refVal - s.inputOffset))
    ({ s with lastInputs := stored }, false)
  else
    let s := { s with inputCount := s.nLookBack }
    let val := makeDec3 (refVal - s.inputOffset)
    let scan := windowScan s.lastInputs s.inputCount s.inputOffsetChange val
    let iMax := scan.2.1
    let iMin := scan.2.2
    let isMax : Bool := val ≥ iMax
    let isMin : Bool := val ≤ iMin
    let s := { s with lastInputs := scan.1,
                      inputOffset := s.inputOffset + (s.inputOffsetChange : ℚ) / 1000,
                      inputOffsetChange := midRangeRaw iMax iMin - s.inputOffsetChange }
    if s.state &&& (AUTOTUNE_STEADY_STATE_AT_BASELINE |||
                    AUTOTUNE_STEADY_STATE_AFTER_STEP_UP) > 0 then
      (atuneSteady s iMax iMin, false)
    else
      let r := atunePeaks s now refVal isMax isMin
      let s := r.1
      let conv : Bool := r.2 && decide (s.peakCount > 4)
      let stats := peakStats s.lastPeaks
      let inducedAmplitude := if conv then stats.1 else 0
      if conv = true ∧ s.controlType = AMIGOF_PI ∧
         |pl s.workingNoiseBand inducedAmplitude - CONST_PI * 130 / 180| >
           CONST_PI * 15 / 180 then
        ({ s with newWorkingNoiseBand := inducedAmplitude * 0.5 * CONST_SQRT2_DIV_2 }, false)
      else
        let s := if conv = true ∧ inducedAmplitude ≠ 0 ∧
                    (0.5 * (stats.2.1 - stats.2.2) - inducedAmplitude) / inducedAmplitude <
                      AUTOTUNE_PEAK_AMPLITUDE_TOLERANCE
                 then { s with state := AUTOTUNE_CONVERGED } else s
        atuneTerminal pl (atuneFailCheck s now) inducedAmplitude

/-- `PID::startAutoTune` (part_004 lines 599-632); step, noise and lookback
are the raw dec-1, dec-3 and integer-second arguments. -/
def startAutoTune (s : PIDState) (aTuneMethod : ℕ)
    (aTuneStep aTuneNoise aTuneLookBack : ℤ) : PIDState :=
  let s := { s with ATuneModeRemember := s.mode,
                    manualOutputRemember := s.manualOutput }
  let out := makeDec1 s.output
  let oMin := makeDec1 s.outMin
  let oMax := makeDec1 s.outMax
  let step1 := if aTuneStep > out - oMin then out - oMin else aTuneStep
  let step2 := if step1 > oMax - out then oMax - out else step1
  let s := { s with oStep := (step2 : ℚ) / 10, controlType := aTuneMethod,
                    noiseBand := (aTuneNoise : ℚ) / 1000,
                    nLookBack := lookBackN aTuneLookBack s.sampleTime }
  { s with mode := MANUAL, isTuning := true, state := AUTOTUNE_OFF }

/-- `PID::stopAutoTune` (part_004 lines 671-682), including the external
`setOutputToManualOutput()` (part_005 lines 294-297), which writes the
restored manual command into the shared output variable. -/
def stopAutoTune (s : PIDState) : PIDState :=
  let s := { s with state := AUTOTUNE_OFF, isTuning := false,
                    mode := s.ATuneModeRemember,
                    manualOutput := s.manualOutputRemember }
  { s with output := (s.manualOutput : ℚ) / 10 }

/-- `PID::completeAutoTune` (part_004 lines 634-669).  Note it harvests the
tuner gains unconditionally; it is invoked by `compute` whenever the tuner
step reports done, converged or failed alike. -/
def completeAutoTune (s : PIDState) : PIDState :=
  let s := { s with PGain := makeDec3 (getAtuneKp s),
                    IGain := makeDec3 (getAtuneKi s),
                    DGain := makeDec3 (getAtuneKd s),
                    mode := AUTOMATIC }
  let s := if s.PGain < 0 then
      { s with PGain := -s.PGain, IGain := -s.IGain, DGain := -s.DGain,
               controllerDirection :=
                 if s.controllerDirection = DIRECT then REVERSE else DIRECT }
    else s
  let s := setTunings s s.PGain s.IGain s.DGain
  stopAutoTune s

/-- `PID::compute` (part_004 lines 333-378): one polled tick at time `now`. -/
def compute (pl : ℚ → ℚ → ℚ) (s : PIDState) (now : ℕ) : PIDState :=
  let timeChange := now - s.lastTime
  if timeChange < s.sampleTime.toNat then s
  else
    let s := { s with lastTime := now }
    if s.isTuning then
      let r := autoTune pl s
      if r.2 then completeAutoTune { r.1 with isTuning := false } else r.1
    else if s.mode = MANUAL then s
    else
      let input := s.input
      let error := s.activeSetPoint - input
      let s := { s with iTerm := limit s (s.iTerm + s.ki * error) }
      let dInput := input - s.lastInput
      let output := limit s (s.kp * error + s.iTerm - s.kd * dInput)
      { s with output := output, lastInput := input }

/-! ## General helper lemmas -/

/-- A fixed phase-lag function used to instantiate concrete scenarios; the
classical tuning methods never consult it. -/
def pl0 : ℚ → ℚ → ℚ := fun _ _ => 0

theorem limit_eq_self (s : PIDState) (v : ℚ) (h1 : s.outMin ≤ v) (h2 : v ≤ s.outMax) :
    limit s v = v := by
  unfold limit
  rw [if_neg (not_lt.mpr h2), if_neg (not_lt.mpr h1)]

theorem limit_mem (s : PIDState) (v : ℚ) (h : s.outMin ≤ s.outMax) :
    s.outMin ≤ limit s v ∧ limit s v ≤ s.outMax := by
  unfold limit
  split_ifs with ha hb
  · exact ⟨h, le_refl _⟩
  · exact ⟨le_refl _, h⟩
  · exact ⟨le_of_not_lt hb, le_of_not_lt ha⟩

/-! ## Claim theorems: PID methods -/

/-- Claim C2: for every call to `setControllerDirection(newDirection)` the
engine of part_004 stores the new direction only when the mode is AUTOMATIC
and the direction differs; in MANUAL mode the call is a complete no-op, so
the claim "the new direction is always stored, in every mode" is false.  The
first conjunct characterizes the method exactly; the remaining conjuncts
evaluate it at the failing input (MANUAL mode, direction DIRECT, request
REVERSE): nothing changes, the direction is not stored. -/
theorem setControllerDirection_manual_noop :
    (∀ (s : PIDState) (d : ℕ),
      setControllerDirection s d =
        (if s.mode = AUTOMATIC ∧ d ≠ s.controllerDirection then
          { s with kp := 0 - s.kp, ki := 0 - s.ki, kd := 0 - s.kd,
                   controllerDirection := d }
         else s)) ∧
    (setControllerDirection { zeroState with mode := MANUAL, sampleTime := 1000 }
        REVERSE).controllerDirection = DIRECT ∧
    setControllerDirection { zeroState with mode := MANUAL, sampleTime := 1000 }
        REVERSE = { zeroState with mode := MANUAL, sampleTime := 1000 } := by
  refine ⟨fun s d => rfl, ?_, ?_⟩ <;> decide

/-- Claim C3 counterexample: in MANUAL mode with no run in progress, a
`compute()` call whose sample interval has elapsed is not a complete no-op:
it advances the stored tick time `lastTime` (part_004 moves the time check
and the `lastTime = now` write ahead of the mode check). -/
theorem compute_manual_updates_lastTime :
    (compute pl0 { zeroState with mode := MANUAL, sampleTime := 1000, lastTime := 5 }
        2000).lastTime = 2000 ∧
    ({ zeroState with mode := MANUAL, sampleTime := 1000, lastTime := 5 } :
        PIDState).lastTime = 5 := by
  constructor <;> decide

/-- Claim C3 (amended): in MANUAL mode with no auto-tune in progress,
`compute()` leaves the output, the integral accumulator, `lastInput` and all
gains unchanged; the stored tick time is also unchanged when the sample
interval has not yet elapsed, but is advanced to `now` when it has. -/
theorem compute_manual_frame (pl : ℚ → ℚ → ℚ) (s : PIDState) (now : ℕ)
    (hm : s.mode = MANUAL) (ht : s.isTuning = false) :
    (now - s.lastTime < s.sampleTime.toNat → compute pl s now = s) ∧
    (¬ (now - s.lastTime < s.sampleTime.toNat) →
      compute pl s now = { s with lastTime := now }) := by
  constructor <;> intro h
  · unfold compute
    rw [if_pos h]
  · unfold compute
    rw [if_neg h]
    simp only [ht, hm, Bool.false_eq_true, if_false, eq_self_iff_true, if_true]

/-- Witness for the amended C3 at a concrete state: both the early-tick
no-op and the due-tick`lastTime`-only update. -/
theorem compute_manual_frame_witness :
    compute pl0 { zeroState with mode := MANUAL, sampleTime := 1000, lastTime := 5 } 600 =
      { zeroState with mode := MANUAL, sampleTime := 1000, lastTime := 5 } ∧
    compute pl0 { zeroState with mode := MANUAL, sampleTime := 1000, lastTime := 5 } 2000 =
      { zeroState with mode := MANUAL, sampleTime := 1000, lastTime := 2000 } := by
  constructor
  · exact (compute_manual_frame pl0
      { zeroState with mode := MANUAL, sampleTime := 1000, lastTime := 5 } 600
      rfl rfl).1 (by decide)
  · exact (compute_manual_frame pl0
      { zeroState with mode := MANUAL, sampleTime := 1000, lastTime := 5 } 2000
      rfl rfl).2 (by decide)

/-- The step-by-step effect of a due `compute()` tick in AUTOMATIC mode with
no run in progress (shared helper for the claims below). -/
theorem computeLawEq (pl : ℚ → ℚ → ℚ) (s : PIDState) (now : ℕ)
    (hm : s.mode = AUTOMATIC) (ht : s.isTuning = false)
    (h : ¬ (now - s.lastTime < s.sampleTime.toNat)) :
    compute pl s now =
      { s with
          lastTime := now,
          iTerm := limit s (s.iTerm + s.ki * (s.activeSetPoint - s.input)),
          output := limit s
            (s.kp * (s.activeSetPoint - s.input) +
              limit s (s.iTerm + s.ki * (s.activeSetPoint - s.input)) -
              s.kd * (s.input - s.lastInput)),
          lastInput := s.input } := by
  unfold compute
  rw [if_neg h]
  simp only [ht, hm, Bool.false_eq_true, if_false, AUTOMATIC, MANUAL,
    Nat.one_ne_zero, reduceCtorEq, ite_false]
  rfl

/-- Claim C5: when `compute()` runs the PID law (AUTOMATIC, not tuning,
interval elapsed) it performs exactly the claimed steps: error, integral
accumulation with clamping, derivative on measurement, clamped output, and
the `lastInput`/`lastTime` updates. -/
theorem compute_pid_law (pl : ℚ → ℚ → ℚ) (s : PIDState) (now : ℕ)
    (hm : s.mode = AUTOMATIC) (ht : s.isTuning = false)
    (h : ¬ (now - s.lastTime < s.sampleTime.toNat)) :
    compute pl s now =
      { s with
          lastTime := now,
          iTerm := limit s (s.iTerm + s.ki * (s.activeSetPoint - s.input)),
          output := limit s
            (s.kp * (s.activeSetPoint - s.input) +
              limit s (s.iTerm + s.ki * (s.activeSetPoint - s.input)) -
              s.kd * (s.input - s.lastInput)),
          lastInput := s.input } :=
  computeLawEq pl s now hm ht h

/-- Witness for C5 at a concrete state: kp=1, ki=1, kd=2, setpoint 10,
input 5, lastInput 3, iTerm 3, limits [0,100]: the integral accumulator
becomes 3+5=8 and the output 5+8-4=9. -/
theorem compute_pid_law_witness :
    compute pl0
      { zeroState with
          mode := AUTOMATIC, sampleTime := 1000, lastTime := 0,
          activeSetPoint := 10, input := 5, lastInput := 3, iTerm := 3,
          kp := 1, ki := 1, kd := 2, outMin := 0, outMax := 100 } 1000 =
      { zeroState with
          mode := AUTOMATIC, sampleTime := 1000, lastTime := 1000,
          activeSetPoint := 10, input := 5, lastInput := 5, iTerm := 8,
          output := 9, kp := 1, ki := 1, kd := 2, outMin := 0, outMax := 100 } := by
  rw [compute_pid_law pl0 _ 1000 rfl rfl (by decide)]
  unfold limit
  norm_num

/-- Claim C9: `setSampleTime` is a no-op for non-positive intervals, and any
sequence of `setSampleTime` calls leaves the continuous-time gains
`ki / intervalSeconds` and `kd * intervalSeconds` exactly invariant (the
rescaling is exact in rational arithmetic). -/
theorem setSampleTime_invariant (s : PIDState) (l : List ℤ) (h : 0 < s.sampleTime) :
    (∀ t : ℤ, t ≤ 0 → setSampleTime s t = s) ∧
    0 < (l.foldl setSampleTime s).sampleTime ∧
    (l.foldl setSampleTime s).ki / (((l.foldl setSampleTime s).sampleTime : ℚ) * 0.001) =
      s.ki / ((s.sampleTime : ℚ) * 0.001) ∧
    (l.foldl setSampleTime s).kd * (((l.foldl setSampleTime s).sampleTime : ℚ) * 0.001) =
      s.kd * ((s.sampleTime : ℚ) * 0.001) := by
  refine ⟨fun t htle => ?_, ?_⟩
  · unfold setSampleTime
    rw [if_neg (by omega)]
  · induction l generalizing s with
    | nil => exact ⟨h, rfl, rfl⟩
    | cons t rest ih =>
      simp only [List.foldl_cons]
      by_cases hp : t > 0
      · have hs : setSampleTime s t =
            { s with ki := s.ki * ((t : ℚ) / (s.sampleTime : ℚ)),
                     kd := s.kd / ((t : ℚ) / (s.sampleTime : ℚ)),
                     sampleTime := t } := by
          unfold setSampleTime
          rw [if_pos hp]
        rw [hs]
        obtain ⟨h1, h2, h3⟩ := ih { s with
          ki := s.ki * ((t : ℚ) / (s.sampleTime : ℚ)),
          kd := s.kd / ((t : ℚ) / (s.sampleTime : ℚ)),
          sampleTime := t } hp
        refine ⟨h1, ?_, ?_⟩
        · rw [h2]
          have hsne : (s.sampleTime : ℚ) ≠ 0 := by positivity
          have htne : (t : ℚ) ≠ 0 := by
            exact_mod_cast (by omega : t ≠ 0)
          field_simp
          ring
        · rw [h3]
          have hsne : (s.sampleTime : ℚ) ≠ 0 := by positivity
          have htne : (t : ℚ) ≠ 0 := by
            exact_mod_cast (by omega : t ≠ 0)
          field_simp
          ring
      · have hs : setSampleTime s t = s := by
          unfold setSampleTime
          rw [if_neg hp]
        rw [hs]
        exact ih s h

/-- Witness for C9: interval 1000 → 250 → 4000 for internal gains ki=2,
kd=6: the continuous-time gains 2/1 and 6·1 survive and the final state has
ki = 8, kd = 3/2 at interval 4000. -/
theorem setSampleTime_invariant_witness :
    (setSampleTime { zeroState with sampleTime := 1000, ki := 2, kd := 6 } 0 =
      { zeroState with sampleTime := 1000, ki := 2, kd := 6 }) ∧
    ([250, 4000].foldl setSampleTime
        { zeroState with sampleTime := 1000, ki := 2, kd := 6 }).ki /
      ((([250, 4000].foldl setSampleTime
        { zeroState with sampleTime := 1000, ki := 2, kd := 6 }).sampleTime : ℚ) * 0.001) =
      (2 : ℚ) / (1000 * 0.001) := by
  have h := setSampleTime_invariant
    { zeroState with sampleTime := 1000, ki := 2, kd := 6 } [250, 4000] (by decide)
  refine ⟨h.1 0 le_rfl, ?_⟩
  rw [h.2.2.1]
  norm_num

/-! ## Claim C4: bumpless transfer -/

theorem setMode_mode (s : PIDState) (m : ℕ) : (setMode s m).mode = m := by
  unfold setMode initEngine
  simp only [apply_ite (fun p : PIDState => p.mode), ite_self]

theorem setMode_input (s : PIDState) (m : ℕ) : (setMode s m).input = s.input := by
  unfold setMode initEngine
  simp only [apply_ite (fun p : PIDState => p.input), ite_self]

theorem setMode_activeSetPoint (s : PIDState) (m : ℕ) :
    (setMode s m).activeSetPoint = s.activeSetPoint := by
  unfold setMode initEngine
  simp only [apply_ite (fun p : PIDState => p.activeSetPoint), ite_self]

theorem setMode_isTuning (s : PIDState) (m : ℕ) : (setMode s m).isTuning = s.isTuning := by
  unfold setMode initEngine
  simp only [apply_ite (fun p : PIDState => p.isTuning), ite_self]

theorem setMode_outMin (s : PIDState) (m : ℕ) : (setMode s m).outMin = s.outMin := by
  unfold setMode initEngine
  simp only [apply_ite (fun p : PIDState => p.outMin), ite_self]

theorem setMode_outMax (s : PIDState) (m : ℕ) : (setMode s m).outMax = s.outMax := by
  unfold setMode initEngine
  simp only [apply_ite (fun p : PIDState => p.outMax), ite_self]

theorem setMode_lastTime (s : PIDState) (m : ℕ) : (setMode s m).lastTime = s.lastTime := by
  unfold setMode initEngine
  simp only [apply_ite (fun p : PIDState => p.lastTime), ite_self]

theorem setMode_sampleTime (s : PIDState) (m : ℕ) :
    (setMode s m).sampleTime = s.sampleTime := by
  unfold setMode initEngine
  simp only [apply_ite (fun p : PIDState => p.sampleTime), ite_self]

/-- Bumpless transfer into AUTOMATIC from a state already in MANUAL mode:
with zero error and an in-range output, the first due `compute()` reproduces
the pre-switch output exactly (helper for the amended C4). -/
theorem bumpless_aux (pl : ℚ → ℚ → ℚ) (s2 : PIDState) (now : ℕ)
    (hm : s2.mode = MANUAL) (hio : s2.input = s2.activeSetPoint)
    (ht : s2.isTuning = false)
    (h1 : s2.outMin ≤ s2.output) (h2 : s2.output ≤ s2.outMax)
    (hdue : ¬ (now - s2.lastTime < s2.sampleTime.toNat)) :
    (compute pl (setMode s2 AUTOMATIC) now).output = s2.output := by
  have hneq : AUTOMATIC ≠ s2.mode := by rw [hm]; decide
  have hs3 : setMode s2 AUTOMATIC =
      { s2 with iTerm := limit { s2 with iTerm := s2.output, lastInput := s2.input } s2.output,
                lastInput := s2.input, mode := AUTOMATIC } := by
    unfold setMode initEngine
    rw [if_pos hneq]
  have hlim0 : limit { s2 with iTerm := s2.output, lastInput := s2.input } s2.output
      = s2.output := limit_eq_self _ _ h1 h2
  rw [hs3, hlim0]
  rw [computeLawEq pl
    { s2 with iTerm := s2.output, lastInput := s2.input, mode := AUTOMATIC }
    now rfl ht hdue]
  show limit { s2 with iTerm := s2.output, lastInput := s2.input, mode := AUTOMATIC }
      (s2.kp * (s2.activeSetPoint - s2.input) +
        limit { s2 with iTerm := s2.output, lastInput := s2.input, mode := AUTOMATIC }
          (s2.output + s2.ki * (s2.activeSetPoint - s2.input)) -
        s2.kd * (s2.input - s2.input)) = s2.output
  have hz : s2.activeSetPoint - s2.input = 0 := sub_eq_zero.mpr hio.symm
  rw [hz]
  simp only [sub_self, mul_zero, add_zero, sub_zero, zero_add]
  rw [limit_eq_self
    { s2 with iTerm := s2.output, lastInput := s2.input, mode := AUTOMATIC }
    s2.output h1 h2]
  exact limit_eq_self
    { s2 with iTerm := s2.output, lastInput := s2.input, mode := AUTOMATIC }
    s2.output h1 h2

unseal Rat.add Rat.mul Rat.sub Rat.inv Rat.ofScientific in
/-- Claim C4 counterexample: the literal claim fails when the error is not
zero.  Constructed run: kp = ki = 1 (internal), kd = 0, limits [0,100],
input 5, setpoint 10, sample interval 1000 ms.  After `setMode(MANUAL)`,
setting output to 3 and `setMode(AUTOMATIC)`, the first due `compute()`
writes 13 = 1·5 + (3 + 1·5), not the pre-switch output 3: re-basing the
integrator eliminates the discontinuity only up to the proportional and
integral action on the present error. -/
theorem bumpless_transfer_counterexample :
    (compute pl0
      (setMode
        { setMode
            { zeroState with
                mode := AUTOMATIC, sampleTime := 1000, lastTime := 0,
                activeSetPoint := 10, input := 5,
                kp := 1, ki := 1, kd := 0, outMin := 0, outMax := 100,
                output := 7 } MANUAL
          with output := 3 } AUTOMATIC) 1000).output = 13 := by
  decide

/-- Claim C4 (amended): the bumpless-transfer equality holds given the two
conditions the counterexample shows are needed: the input equals the
setpoint at the switch (zero error) and the mutated pre-switch output lies
within the output limits.  Then for every starting state and every mutated
output `v`, the sequence `setMode(MANUAL)`, `output := v`,
`setMode(AUTOMATIC)` followed by the first due `compute()` writes exactly
`v`. -/
theorem bumpless_transfer (pl : ℚ → ℚ → ℚ) (s : PIDState) (v : ℚ) (now : ℕ)
    (hio : s.input = s.activeSetPoint) (ht : s.isTuning = false)
    (h1 : s.outMin ≤ v) (h2 : v ≤ s.outMax)
    (hdue : ¬ (now - s.lastTime < s.sampleTime.toNat)) :
    (compute pl (setMode { setMode s MANUAL with output := v } AUTOMATIC) now).output
      = v := by
  apply bumpless_aux
  · show (setMode s MANUAL).mode = MANUAL
    exact setMode_mode s MANUAL
  · show (setMode s MANUAL).input = (setMode s MANUAL).activeSetPoint
    rw [setMode_input, setMode_activeSetPoint]
    exact hio
  · show (setMode s MANUAL).isTuning = false
    rw [setMode_isTuning]
    exact ht
  · show (setMode s MANUAL).outMin ≤ v
    rw [setMode_outMin]
    exact h1
  · show v ≤ (setMode s MANUAL).outMax
    rw [setMode_outMax]
    exact h2
  · show ¬ (now - (setMode s MANUAL).lastTime < (setMode s MANUAL).sampleTime.toNat)
    rw [setMode_lastTime, setMode_sampleTime]
    exact hdue

/-- Witness for the amended C4: the counterexample scenario with the
setpoint moved to the input (zero error) now reproduces the pre-switch
output 3. -/
theorem bumpless_transfer_witness :
    (compute pl0
      (setMode
        { setMode
            { zeroState with
                mode := AUTOMATIC, sampleTime := 1000, lastTime := 0,
                activeSetPoint := 5, input := 5,
                kp := 1, ki := 1, kd := 0, outMin := 0, outMax := 100,
                output := 7 } MANUAL
          with output := 3 } AUTOMATIC) 1000).output = 3 := by
  exact bumpless_transfer pl0
    { zeroState with
        mode := AUTOMATIC, sampleTime := 1000, lastTime := 0,
        activeSetPoint := 5, input := 5,
        kp := 1, ki := 1, kd := 0, outMin := 0, outMax := 100,
        output := 7 } 3 1000 rfl rfl (by norm_num) (by norm_num) (by decide)

/-! ## Claim C10: constructor ordering (engine vs the older PID_v1 variant) -/

/-- `PID::setControllerDirection` of the older variant
(src/osPID_Firmware/PID_v1.cpp lines 194-203): gains are negated under the
same condition as the engine variant, but the new direction is always
stored, outside the conditional. -/
def v1SetControllerDirection (s : PIDState) (Direction : ℕ) : PIDState :=
  let s := if s.mode = AUTOMATIC ∧ Direction ≠ s.controllerDirection then
      { s with kp := 0 - s.kp, ki := 0 - s.ki, kd := 0 - s.kd }
    else s
  { s with controllerDirection := Direction }

/-- `PID::PID` of the older variant (src/osPID_Firmware/PID_v1.cpp lines
20-39): output limits 0-255, 100 ms sample time, and crucially
`setControllerDirection` before `setTunings`.  The body of `setTunings` and
`setOutputLimits` is identical in the two variants, so those models are
shared. -/
def v1Construct (input0 output0 setpoint0 : ℚ) (Kp Ki Kd : ℤ)
    (ControllerDirection : ℕ) (millisNow : ℕ) : PIDState :=
  let s := setOutputLimits zeroState 0 255
  let s := { s with sampleTime := 100 }
  let s := v1SetControllerDirection s ControllerDirection
  let s := setTunings s Kp Ki Kd
  { s with lastTime := millisNow - s.sampleTime.toNat, isTuning := false,
           mode := MANUAL, output := output0, input := input0,
           activeSetPoint := setpoint0 }

/-- Claim C10: the engine constructor (part_004) calls `setTunings` before
storing its direction argument, and the zero-initialized direction field it
reads is DIRECT, so a controller constructed with REVERSE gets the
unnegated internal gains `Kp/1000`, `Ki/1000·1s`, `Kd/1000/1s` while still
reporting direction REVERSE; repeating `setTunings` with the very same
display gains afterwards negates them.  The older PID_v1 constructor sets
the direction first and therefore produces the negated gain `-Kp/1000`
directly. -/
theorem constructor_direction_order (Kp Ki Kd : ℤ)
    (hKp : 0 ≤ Kp) (hKi : 0 ≤ Ki) (hKd : 0 ≤ Kd)
    (in0 out0 sp0 : ℚ) (mn : ℕ) :
    (pidConstruct in0 out0 sp0 Kp Ki Kd REVERSE mn).kp = (Kp : ℚ) / 1000 ∧
    (pidConstruct in0 out0 sp0 Kp Ki Kd REVERSE mn).ki =
      ((Ki : ℚ) / 1000) * (((1000 : ℤ) : ℚ) * 0.001) ∧
    (pidConstruct in0 out0 sp0 Kp Ki Kd REVERSE mn).kd =
      ((Kd : ℚ) / 1000) / (((1000 : ℤ) : ℚ) * 0.001) ∧
    (pidConstruct in0 out0 sp0 Kp Ki Kd REVERSE mn).controllerDirection = REVERSE ∧
    (setTunings (pidConstruct in0 out0 sp0 Kp Ki Kd REVERSE mn) Kp Ki Kd).kp =
      0 - ((Kp : ℚ) / 1000) ∧
    (v1Construct in0 out0 sp0 Kp Ki Kd REVERSE mn).kp = 0 - ((Kp : ℚ) / 1000) := by
  have hno : ¬ (Kp < 0 ∨ Ki < 0 ∨ Kd < 0) := by
    simp only [not_or, not_lt]
    exact ⟨hKp, hKi, hKd⟩
  have hdirS : (pidConstruct in0 out0 sp0 Kp Ki Kd REVERSE mn).controllerDirection
      = REVERSE := by
    unfold pidConstruct setTunings
    simp only [if_neg hno]
  refine ⟨?_, ?_, ?_, hdirS, ?_, ?_⟩
  · unfold pidConstruct setTunings
    simp only [if_neg hno]
    simp [zeroState, REVERSE, apply_ite (fun p : PIDState => p.kp)]
  · unfold pidConstruct setTunings
    simp only [if_neg hno]
    simp [zeroState, REVERSE, DEFAULT_LOOP_SAMPLE_TIME, apply_ite (fun p : PIDState => p.ki)]
  · unfold pidConstruct setTunings
    simp only [if_neg hno]
    simp [zeroState, REVERSE, DEFAULT_LOOP_SAMPLE_TIME, apply_ite (fun p : PIDState => p.kd)]
  · rw [setTunings, if_neg hno]
    simp only [hdirS, if_pos rfl]
    unfold pidConstruct setTunings
    simp only [if_neg hno]
    simp [zeroState, REVERSE, apply_ite (fun p : PIDState => p.kp)]
  · unfold v1Construct v1SetControllerDirection setOutputLimits setTunings
    simp only [if_neg hno]
    simp [zeroState, REVERSE, AUTOMATIC, MANUAL,
      apply_ite (fun p : PIDState => p.kp),
      apply_ite (fun p : PIDState => p.controllerDirection),
      apply_ite (fun p : PIDState => p.mode)]

/-- Witness for C10 with the firmware default gains `PGain = 1.600`,
`IGain = 0.200`, `DGain = 0`: the engine constructor under REVERSE yields
`kp = 1.6` (positive, unnegated), and the older variant yields `-1.6`. -/
theorem constructor_direction_order_witness :
    (pidConstruct 25 0 25 1600 200 0 REVERSE 0).kp = (1600 : ℚ) / 1000 ∧
    (v1Construct 25 0 25 1600 200 0 REVERSE 0).kp = 0 - ((1600 : ℚ) / 1000) := by
  have h := constructor_direction_order 1600 200 0 (by decide) (by decide) (by decide)
    25 0 25 0
  exact ⟨h.1, h.2.2.2.2.2⟩

/-! ## Claim C8: classical gain synthesis -/

/-- Claim C8: when a classical-method run converges, the synthesized
parameters are `Ku = (4/π)·step/inducedAmplitude` (with the source's
rational π literal), `Pu` the mean of the two most recent full-cycle
peak-time spans (slots 1-3 and 2-4) in seconds (the sum of the two spans
divided by 2000 ms), `Kp = Ku/divisor(method,KP)`, `Ti = Pu/divisor(method,TI)`,
and `Td = 0` for a PI-only row (TD byte 0) else `Pu/divisor(method,TD)`;
each divisor is the table byte times 0.05, and the ZIEGLER_NICHOLS_PID row
{34, 40, 160} gives divisors 1.7, 2.0 and 8.0. -/
theorem atuneFinish_classical (pl : ℚ → ℚ → ℚ) (s : PIDState) (a : ℚ)
    (h : ¬ s.controlType = AMIGOF_PI) :
    (atuneFinish pl s a =
      { s with
          Kp := (4 / CONST_PI) * (s.workingOstep / a) / divisor s.controlType 0,
          Ti := (((s.lastPeakTime.getD 1 0 - s.lastPeakTime.getD 3 0) +
                  (s.lastPeakTime.getD 2 0 - s.lastPeakTime.getD 4 0) : ℕ) : ℚ) / 2000 /
                divisor s.controlType 1,
          Td := if PIController s.controlType then 0
                else (((s.lastPeakTime.getD 1 0 - s.lastPeakTime.getD 3 0) +
                       (s.lastPeakTime.getD 2 0 - s.lastPeakTime.getD 4 0) : ℕ) : ℚ) / 2000 /
                     divisor s.controlType 2 }) ∧
    (∀ m i : ℕ, divisor m i = (divisorByte m i : ℚ) * 0.05) ∧
    tuningRule.getD ZIEGLER_NICHOLS_PID (0, 0, 0) = (34, 40, 160) ∧
    divisor ZIEGLER_NICHOLS_PID 0 = 17 / 10 ∧
    divisor ZIEGLER_NICHOLS_PID 1 = 2 ∧
    divisor ZIEGLER_NICHOLS_PID 2 = 8 ∧
    PIController ZIEGLER_NICHOLS_PID = false ∧
    PIController ZIEGLER_NICHOLS_PI = true := by
  refine ⟨?_, fun m i => rfl, by decide, ?_, ?_, ?_, by decide, by decide⟩
  · unfold atuneFinish
    rw [if_neg h]
  · norm_num [divisor, divisorByte, tuningRule, ZIEGLER_NICHOLS_PID]
  · norm_num [divisor, divisorByte, tuningRule, ZIEGLER_NICHOLS_PID]
  · norm_num [divisor, divisorByte, tuningRule, ZIEGLER_NICHOLS_PID]

/-- Witness for C8: a converged ZIEGLER_NICHOLS_PID state with step 10,
induced amplitude 2, and peak times spanning two 20-second cycles yields
`Pu = 20 s`, `Ti = 20/2 = 10`, `Td = 20/8 = 5/2`, and
`Kp = (4/π)·5/1.7`. -/
theorem atuneFinish_classical_witness :
    (atuneFinish pl0
      { zeroState with
          controlType := ZIEGLER_NICHOLS_PID, workingOstep := 10,
          lastPeakTime := [60000, 50000, 40000, 30000, 20000] } 2).Ti = 10 ∧
    (atuneFinish pl0
      { zeroState with
          controlType := ZIEGLER_NICHOLS_PID, workingOstep := 10,
          lastPeakTime := [60000, 50000, 40000, 30000, 20000] } 2).Td = 5 / 2 ∧
    (atuneFinish pl0
      { zeroState with
          controlType := ZIEGLER_NICHOLS_PID, workingOstep := 10,
          lastPeakTime := [60000, 50000, 40000, 30000, 20000] } 2).Kp =
      (4 / CONST_PI) * (10 / 2) / (17 / 10) := by
  have h := atuneFinish_classical pl0
    { zeroState with
        controlType := ZIEGLER_NICHOLS_PID, workingOstep := 10,
        lastPeakTime := [60000, 50000, 40000, 30000, 20000] } 2 (by decide)
  rw [h.1]
  refine ⟨?_, ?_, ?_⟩ <;>
    norm_num [divisor, divisorByte, tuningRule, PIController, ZIEGLER_NICHOLS_PID]

/-! ## Claim C1: what the tick driver does when a run ends FAILED -/

/-- A mid-run tuner state about to fail: the relay is up, the lookback
window holds strongly diverging de-trended samples (so the fresh sample
ties neither extremum and the peak clock is not refreshed), and by `now`
more than `AUTOTUNE_MAX_WAIT` has elapsed since `lastPeakTime[0]`.  The
tuner fields `Kp = 2, Ti = 10, Td = 5/2` are stale values from an earlier
run; the live display gains are the firmware defaults
`1.600 / 0.200 / 0.000`. -/
def staleFailState : PIDState :=
  { zeroState with
      isTuning := true, mode := MANUAL, state := AUTOTUNE_RELAY_STEP_UP,
      nLookBack := 2, inputCount := 2,
      lastInputs := [5000, -5000] ++ List.replicate 99 0,
      setpoint := 25, input := 25, inputOffset := 25,
      workingNoiseBand := 1 / 2, newWorkingNoiseBand := 1 / 2,
      lastPeakTime := [1000, 900, 800, 700, 600],
      lastPeaks := [26, 24, 26, 24, 26],
      lastTime := 399000, sampleTime := 1000,
      outputStart := 40, workingOstep := 10, outMin := 0, outMax := 100,
      Kp := 2, Ti := 10, Td := 5 / 2,
      dispKp := 1600, dispKi := 200, dispKd := 0,
      kp := 8 / 5, ki := 1 / 5, kd := 0,
      ATuneModeRemember := AUTOMATIC, manualOutputRemember := 333,
      controlType := ZIEGLER_NICHOLS_PID }

unseal Rat.add Rat.mul Rat.sub Rat.inv Rat.ofScientific in
/-- Claim C1 (code bug): at the tick at which the tuner step reports done
with state FAILED, `compute` invokes `completeAutoTune`, which passes the
stale tuner gains to `setTunings` unconditionally: the display gain
`dispKp` changes from the pre-run 1.600 to the stale 2.000 (and the
internal `kp` from 1.6 to 2), contradicting "no display gain or internal
gain is changed".  The restoration part of the claim does hold on the same
tick: the remembered mode (AUTOMATIC) and remembered manual output (33.3)
are restored by `stopAutoTune`. -/
theorem failed_run_changes_gains :
    (autoTune pl0 { staleFailState with lastTime := 400000 }).1.state = AUTOTUNE_FAILED ∧
    (autoTune pl0 { staleFailState with lastTime := 400000 }).2 = true ∧
    staleFailState.dispKp = 1600 ∧
    (compute pl0 staleFailState 400000).dispKp = 2000 ∧
    (compute pl0 staleFailState 400000).kp = 2 ∧
    (compute pl0 staleFailState 400000).mode = AUTOMATIC ∧
    (compute pl0 staleFailState 400000).isTuning = false ∧
    (compute pl0 staleFailState 400000).output = 333 / 10 := by
  refine ⟨?_, ?_, ?_, ?_, ?_, ?_, ?_, ?_⟩ <;> decide

/-! ## Claim C7: the failure conditions of a tuning run -/

/-- A mid-run state with 19 recorded peaks whose next sample ties the
window minimum after a maximum run, so the 20th peak is recorded on this
step. -/
def peak20State : PIDState :=
  { zeroState with
      isTuning := true, mode := MANUAL, state := AUTOTUNE_RELAY_STEP_UP,
      nLookBack := 2, inputCount := 2,
      lastInputs := [5000, 6000] ++ List.replicate 99 0,
      setpoint := 25, input := 24, inputOffset := 25,
      workingNoiseBand := 2, newWorkingNoiseBand := 2,
      peakType := MAXIMUM, peakCount := 19,
      lastPeakTime := [399500, 399000, 398500, 398000, 397500],
      lastPeaks := [50, 10, 50, 10, 50],
      lastTime := 400000, sampleTime := 1000,
      outputStart := 40, workingOstep := 10, outMin := 0, outMax := 100,
      controlType := ZIEGLER_NICHOLS_PID }

unseal Rat.add Rat.mul Rat.sub Rat.inv Rat.ofScientific in
/-- Claim C7 counterexample: the tuner enters FAILED on the step at which
the 20th peak is recorded (`peakCount >= 20` in the source), not "more than
20": here exactly 20 peaks are recorded, no timeout has elapsed (the peak
clock reads the current instant), and the run still terminates FAILED. -/
theorem failure_at_exactly_20_peaks :
    peak20State.peakCount = 19 ∧
    (autoTune pl0 peak20State).1.peakCount = 20 ∧
    (autoTune pl0 peak20State).1.lastPeakTime.getD 0 0 = 400000 ∧
    (autoTune pl0 peak20State).1.state = AUTOTUNE_FAILED ∧
    (autoTune pl0 peak20State).2 = true := by
  refine ⟨?_, ?_, ?_, ?_, ?_⟩ <;> decide

/-- A flat process fed to the tuner: constant input 25, relay never
switches, every sample ties the window extremum. -/
def flatBase : PIDState :=
  { zeroState with
      mode := MANUAL, output := 50, outMin := 0, outMax := 100,
      sampleTime := 1000000, input := 25, activeSetPoint := 25 }

/-- The flat run after `k` ticks spaced 1000 s apart (well beyond the
5-minute `AUTOTUNE_MAX_WAIT` every single tick). -/
def flatTuneRun (k : ℕ) : PIDState :=
  (List.range k).foldl (fun s i => compute pl0 s (1000000 * (i + 1)))
    (startAutoTune flatBase ZIEGLER_NICHOLS_PID 100 500 10)

set_option maxRecDepth 4000 in
unseal Rat.add Rat.mul Rat.sub Rat.inv Rat.ofScientific in
/-- Claim C7 (amended): the failure check fires on the first step at which
at least 20 peaks have been recorded (not "more than 20"), or strictly more
than `AUTOTUNE_MAX_WAIT` has elapsed since `lastPeakTime[0]` — and
`lastPeakTime[0]` is refreshed by every sample that ties the lookback
window extremum, not only by recorded peaks.  Consequently a process whose
input never produces peaks need not terminate: the exactly-flat process
ties the extremum on every sample, keeps resetting the clock, and after six
1000-second ticks (sixteen timeouts beyond the run start) it has recorded
no peak and is still actively stepping in RELAY_STEP_UP. -/
theorem failure_condition_amended :
    (∀ (s : PIDState) (now : ℕ),
      (atuneFailCheck s now).state = AUTOTUNE_FAILED ↔
        (s.state = AUTOTUNE_FAILED ∨ 20 ≤ s.peakCount ∨
          AUTOTUNE_MAX_WAIT < now - s.lastPeakTime.getD 0 0)) ∧
    (flatTuneRun 6).state = AUTOTUNE_RELAY_STEP_UP ∧
    (flatTuneRun 6).isTuning = true ∧
    (flatTuneRun 6).peakCount = 0 ∧
    (flatTuneRun 6).lastPeakTime.getD 0 0 = 6000000 ∧
    16 * AUTOTUNE_MAX_WAIT < 6000000 - 1000000 := by
  refine ⟨fun s now => ?_, ?_, ?_, ?_, ?_, ?_⟩
  · unfold atuneFailCheck
    split_ifs with hc
    · simp only [AUTOTUNE_FAILED]
      constructor
      · intro _
        rcases hc with hc | hc
        · exact Or.inr (Or.inr hc)
        · exact Or.inr (Or.inl hc)
      · intro _
        trivial
    · rw [not_or] at hc
      constructor
      · intro hs
        exact Or.inl hs
      · rintro (hs | hs | hs)
        · exact hs
        · exact absurd hs hc.2
        · exact absurd hs hc.1
  all_goals decide

/-! ## Claim C6: output stays within the configured limits -/

/-- A controller that has been running in AUTOMATIC: its last PID write was
50.04, limits are [0, 100]. -/
def roundSlipState : PIDState :=
  { zeroState with
      mode := AUTOMATIC, output := 5004 / 100, outMin := 0, outMax := 100,
      sampleTime := 1000, input := 25, activeSetPoint := 25 }

unseal Rat.add Rat.mul Rat.sub Rat.inv Rat.ofScientific in
/-- Claim C6 counterexample: `startAutoTune` bounds the relay step with the
output and the limits rounded to one decimal (`makeDecimal<1>`), so from
output 50.04 it picks step 50.0, and the first tuner tick forces the relay
to `outputStart + step = 100.04`, strictly above `outputMax = 100`. -/
theorem relay_write_exceeds_limit :
    (startAutoTune roundSlipState ZIEGLER_NICHOLS_PID 1000 500 10).oStep = 50 ∧
    (compute pl0 (startAutoTune roundSlipState ZIEGLER_NICHOLS_PID 1000 500 10)
      1000).output = 2501 / 25 ∧
    ((2501 / 25 : ℚ) > 100 ∧ roundSlipState.outMax = 100) := by
  refine ⟨?_, ?_, ?_, ?_⟩ <;> decide

/-! Helper bounds for the half-away-from-zero rounding. -/

theorem roundHalfAway_le (x : ℚ) : (roundHalfAway x : ℚ) ≤ x + 1 / 2 := by
  unfold roundHalfAway
  split_ifs with h
  · exact Int.floor_le (x + 1 / 2)
  · have := Int.ceil_lt_add_one (x - 1 / 2)
    linarith

theorem le_roundHalfAway (x : ℚ) : x - 1 / 2 ≤ (roundHalfAway x : ℚ) := by
  unfold roundHalfAway
  split_ifs with h
  · have := Int.sub_one_lt_floor (x + 1 / 2)
    linarith
  · exact Int.le_ceil (x - 1 / 2)

theorem roundHalfAway_mono {x y : ℚ} (h : x ≤ y) :
    roundHalfAway x ≤ roundHalfAway y := by
  unfold roundHalfAway
  split_ifs with hx hy
  · exact Int.floor_le_floor (by linarith)
  · exact absurd (le_trans hx h) hy
  · calc ⌈x - 1 / 2⌉ ≤ ⌈(0 : ℚ) - 1 / 2⌉ := Int.ceil_le_ceil (by linarith)
      _ = 0 := by norm_num
      _ ≤ ⌊y + 1 / 2⌋ := by
          have : (0 : ℚ) ≤ y + 1 / 2 := by linarith
          exact_mod_cast Int.le_floor.mpr (by push_cast; linarith)
  · exact Int.ceil_le_ceil (by linarith)

theorem makeDec1_le (x : ℚ) : (makeDec1 x : ℚ) / 10 ≤ x + 1 / 20 := by
  unfold makeDec1
  have := roundHalfAway_le (x * 10)
  linarith

theorem le_makeDec1 (x : ℚ) : x - 1 / 20 ≤ (makeDec1 x : ℚ) / 10 := by
  unfold makeDec1
  have := le_roundHalfAway (x * 10)
  linarith

theorem makeDec1_mono {x y : ℚ} (h : x ≤ y) : makeDec1 x ≤ makeDec1 y :=
  roundHalfAway_mono (by linarith)

/-! Per-phase frame facts about the tuner step (the relay-bias build option
is off, so `outputStart` and `workingOstep` are only ever written by the
initialization). -/

theorem relay_output (s : PIDState) : (atuneRelaySwitch s).output = s.output := by
  unfold atuneRelaySwitch
  simp only [apply_ite (fun p : PIDState => p.output), ite_self]

theorem relay_outputStart (s : PIDState) :
    (atuneRelaySwitch s).outputStart = s.outputStart := by
  unfold atuneRelaySwitch
  simp only [apply_ite (fun p : PIDState => p.outputStart), ite_self]

theorem relay_workingOstep (s : PIDState) :
    (atuneRelaySwitch s).workingOstep = s.workingOstep := by
  unfold atuneRelaySwitch
  simp only [apply_ite (fun p : PIDState => p.workingOstep), ite_self]

theorem setOut_output (s : PIDState) :
    (atuneSetOutput s).output = s.outputStart + s.workingOstep ∨
    (atuneSetOutput s).output = s.outputStart - s.workingOstep ∨
    (atuneSetOutput s).output = s.output := by
  unfold atuneSetOutput
  split_ifs <;> simp

theorem setOut_outputStart (s : PIDState) :
    (atuneSetOutput s).outputStart = s.outputStart := by
  unfold atuneSetOutput
  simp only [apply_ite (fun p : PIDState => p.outputStart), ite_self]

theorem setOut_workingOstep (s : PIDState) :
    (atuneSetOutput s).workingOstep = s.workingOstep := by
  unfold atuneSetOutput
  simp only [apply_ite (fun p : PIDState => p.workingOstep), ite_self]

theorem steady_output (s : PIDState) (a b : ℤ) :
    (atuneSteady s a b).output = s.output := by
  unfold atuneSteady
  simp only [apply_ite (fun p : PIDState => p.output), ite_self]

theorem peaks_output (s : PIDState) (n : ℕ) (r : ℚ) (b1 b2 : Bool) :
    (atunePeaks s n r b1 b2).1.output = s.output := by
  unfold atunePeaks
  simp only [apply_ite (fun p : PIDState => p.output), ite_self]

theorem peaks_outputStart (s : PIDState) (n : ℕ) (r : ℚ) (b1 b2 : Bool) :
    (atunePeaks s n r b1 b2).1.outputStart = s.outputStart := by
  unfold atunePeaks
  simp only [apply_ite (fun p : PIDState => p.outputStart), ite_self]

theorem fail_output (s : PIDState) (n : ℕ) : (atuneFailCheck s n).output = s.output := by
  unfold atuneFailCheck
  simp only [apply_ite (fun p : PIDState => p.output), ite_self]

theorem fail_outputStart (s : PIDState) (n : ℕ) :
    (atuneFailCheck s n).outputStart = s.outputStart := by
  unfold atuneFailCheck
  simp only [apply_ite (fun p : PIDState => p.outputStart), ite_self]

theorem finish_output (pl : ℚ → ℚ → ℚ) (s : PIDState) (a : ℚ) :
    (atuneFinish pl s a).output = s.output := by
  unfold atuneFinish
  simp only [apply_ite (fun p : PIDState => p.output), ite_self]

theorem term_output_eq (pl : ℚ → ℚ → ℚ) (s : PIDState) (a : ℚ) :
    (atuneTerminal pl s a).1.output =
      if s.state &&& (AUTOTUNE_CONVERGED ||| AUTOTUNE_FAILED) = 0 then s.output
      else s.outputStart := by
  unfold atuneTerminal
  by_cases h1 : s.state &&& (AUTOTUNE_CONVERGED ||| AUTOTUNE_FAILED) = 0
  · rw [if_pos h1, if_pos h1]
  · rw [if_neg h1, if_neg h1]
    by_cases h2 : s.state = AUTOTUNE_FAILED
    · rw [if_pos h2]
    · rw [if_neg h2]
      simp [finish_output]

/-! Whole-step frame facts. -/

theorem autoTune_outMin (pl : ℚ → ℚ → ℚ) (s : PIDState) :
    (autoTune pl s).1.outMin = s.outMin := by
  unfold autoTune atuneInit atuneRelaySwitch atuneSetOutput atuneSteady atunePeaks
    atuneFailCheck atuneTerminal atuneFinish
  simp only [apply_ite (fun p : PIDState × Bool => p.1.outMin),
    apply_ite (fun p : PIDState => p.outMin), ite_self]

theorem autoTune_outMax (pl : ℚ → ℚ → ℚ) (s : PIDState) :
    (autoTune pl s).1.outMax = s.outMax := by
  unfold autoTune atuneInit atuneRelaySwitch atuneSetOutput atuneSteady atunePeaks
    atuneFailCheck atuneTerminal atuneFinish
  simp only [apply_ite (fun p : PIDState × Bool => p.1.outMax),
    apply_ite (fun p : PIDState => p.outMax), ite_self]

theorem autoTune_isTuning (pl : ℚ → ℚ → ℚ) (s : PIDState) :
    (autoTune pl s).1.isTuning = s.isTuning := by
  unfold autoTune atuneInit atuneRelaySwitch atuneSetOutput atuneSteady atunePeaks
    atuneFailCheck atuneTerminal atuneFinish
  simp only [apply_ite (fun p : PIDState × Bool => p.1.isTuning),
    apply_ite (fun p : PIDState => p.isTuning), ite_self]

theorem autoTune_manualOutputRemember (pl : ℚ → ℚ → ℚ) (s : PIDState) :
    (autoTune pl s).1.manualOutputRemember = s.manualOutputRemember := by
  unfold autoTune atuneInit atuneRelaySwitch atuneSetOutput atuneSteady atunePeaks
    atuneFailCheck atuneTerminal atuneFinish
  simp only [apply_ite (fun p : PIDState × Bool => p.1.manualOutputRemember),
    apply_ite (fun p : PIDState => p.manualOutputRemember), ite_self]

theorem autoTune_ATuneModeRemember (pl : ℚ → ℚ → ℚ) (s : PIDState) :
    (autoTune pl s).1.ATuneModeRemember = s.ATuneModeRemember := by
  unfold autoTune atuneInit atuneRelaySwitch atuneSetOutput atuneSteady atunePeaks
    atuneFailCheck atuneTerminal atuneFinish
  simp only [apply_ite (fun p : PIDState × Bool => p.1.ATuneModeRemember),
    apply_ite (fun p : PIDState => p.ATuneModeRemember), ite_self]

theorem autoTune_outputStart (pl : ℚ → ℚ → ℚ) (s : PIDState)
    (h : ¬ s.state = AUTOTUNE_OFF) :
    (autoTune pl s).1.outputStart = s.outputStart := by
  unfold autoTune
  simp only [if_neg h]
  unfold atuneRelaySwitch atuneSetOutput atuneSteady atunePeaks
    atuneFailCheck atuneTerminal atuneFinish
  simp only [apply_ite (fun p : PIDState × Bool => p.1.outputStart),
    apply_ite (fun p : PIDState => p.outputStart), ite_self]

theorem autoTune_workingOstep (pl : ℚ → ℚ → ℚ) (s : PIDState)
    (h : ¬ s.state = AUTOTUNE_OFF) :
    (autoTune pl s).1.workingOstep = s.workingOstep := by
  unfold autoTune
  simp only [if_neg h]
  unfold atuneRelaySwitch atuneSetOutput atuneSteady atunePeaks
    atuneFailCheck atuneTerminal atuneFinish
  simp only [apply_ite (fun p : PIDState × Bool => p.1.workingOstep),
    apply_ite (fun p : PIDState => p.workingOstep), ite_self]

theorem autoTune_outputStart_init (pl : ℚ → ℚ → ℚ) (s : PIDState)
    (h : s.state = AUTOTUNE_OFF) :
    (autoTune pl s).1.outputStart = s.output := by
  unfold autoTune
  simp only [if_pos h]
  unfold atuneInit atuneRelaySwitch atuneSetOutput atuneSteady atunePeaks
    atuneFailCheck atuneTerminal atuneFinish
  simp only [apply_ite (fun p : PIDState × Bool => p.1.outputStart),
    apply_ite (fun p : PIDState => p.outputStart), ite_self]

theorem autoTune_workingOstep_init (pl : ℚ → ℚ → ℚ) (s : PIDState)
    (h : s.state = AUTOTUNE_OFF) :
    (autoTune pl s).1.workingOstep = s.oStep := by
  unfold autoTune
  simp only [if_pos h]
  unfold atuneInit atuneRelaySwitch atuneSetOutput atuneSteady atunePeaks
    atuneFailCheck atuneTerminal atuneFinish
  simp only [apply_ite (fun p : PIDState × Bool => p.1.workingOstep),
    apply_ite (fun p : PIDState => p.workingOstep), ite_self]

set_option maxHeartbeats 1000000 in
/-- Every value the tuner step can write to the output while mid-run: the
relay high level, the relay low level, the parked `outputStart`, or nothing
(output untouched). -/
theorem autoTune_write (pl : ℚ → ℚ → ℚ) (s : PIDState)
    (h : ¬ s.state = AUTOTUNE_OFF) :
    (autoTune pl s).1.output = s.outputStart + s.workingOstep ∨
    (autoTune pl s).1.output = s.outputStart - s.workingOstep ∨
    (autoTune pl s).1.output = s.outputStart ∨
    (autoTune pl s).1.output = s.output := by
  have hout := setOut_output (atuneRelaySwitch s)
  rw [relay_output, relay_outputStart, relay_workingOstep] at hout
  have hos := setOut_outputStart (atuneRelaySwitch s)
  rw [relay_outputStart] at hos
  unfold autoTune
  simp only [if_neg h, apply_ite (fun p : PIDState × Bool => p.1.output),
    apply_ite (fun p : PIDState => p.output),
    apply_ite (fun p : PIDState => p.outputStart),
    term_output_eq, fail_output, fail_outputStart, peaks_output, peaks_outputStart,
    steady_output, ite_self]
  split_ifs <;> tauto

set_option maxHeartbeats 1000000 in
/-- On the initializing tick (`state = OFF`), the step writes the relay
levels computed from the current output and `oStep`, or leaves the output
alone. -/
theorem autoTune_write_init (pl : ℚ → ℚ → ℚ) (s : PIDState)
    (h : s.state = AUTOTUNE_OFF) :
    (autoTune pl s).1.output = s.output + s.oStep ∨
    (autoTune pl s).1.output = s.output - s.oStep ∨
    (autoTune pl s).1.output = s.output := by
  have init_output : (atuneInit s s.lastTime).output = s.output := by
    unfold atuneInit
    simp only [apply_ite (fun p : PIDState => p.output), ite_self]
  have init_outputStart : (atuneInit s s.lastTime).outputStart = s.output := by
    unfold atuneInit
    simp only [apply_ite (fun p : PIDState => p.outputStart), ite_self]
  have init_workingOstep : (atuneInit s s.lastTime).workingOstep = s.oStep := by
    unfold atuneInit
    simp only [apply_ite (fun p : PIDState => p.workingOstep), ite_self]
  have hout := setOut_output (atuneRelaySwitch (atuneInit s s.lastTime))
  rw [relay_output, relay_outputStart, relay_workingOstep,
    init_output, init_outputStart, init_workingOstep] at hout
  have hos := setOut_outputStart (atuneRelaySwitch (atuneInit s s.lastTime))
  rw [relay_outputStart, init_outputStart] at hos
  unfold autoTune
  simp only [if_pos h, apply_ite (fun p : PIDState × Bool => p.1.output),
    apply_ite (fun p : PIDState => p.output),
    apply_ite (fun p : PIDState => p.outputStart),
    term_output_eq, fail_output, fail_outputStart, peaks_output, peaks_outputStart,
    steady_output, ite_self]
  split_ifs <;> tauto

/-! Frame facts for the completion path (`completeAutoTune` up to the
restored manual output). -/

theorem setTunings_outMin (s : PIDState) (a b c : ℤ) :
    (setTunings s a b c).outMin = s.outMin := by
  unfold setTunings
  simp only [apply_ite (fun p : PIDState => p.outMin), ite_self]

theorem setTunings_outMax (s : PIDState) (a b c : ℤ) :
    (setTunings s a b c).outMax = s.outMax := by
  unfold setTunings
  simp only [apply_ite (fun p : PIDState => p.outMax), ite_self]

theorem setTunings_manualOutputRemember (s : PIDState) (a b c : ℤ) :
    (setTunings s a b c).manualOutputRemember = s.manualOutputRemember := by
  unfold setTunings
  simp only [apply_ite (fun p : PIDState => p.manualOutputRemember), ite_self]

theorem stop_output (s : PIDState) :
    (stopAutoTune s).output = (s.manualOutputRemember : ℚ) / 10 := rfl

theorem stop_isTuning (s : PIDState) : (stopAutoTune s).isTuning = false := rfl

theorem stop_outMin (s : PIDState) : (stopAutoTune s).outMin = s.outMin := rfl

theorem stop_outMax (s : PIDState) : (stopAutoTune s).outMax = s.outMax := rfl

theorem complete_output (s : PIDState) :
    (completeAutoTune s).output = (s.manualOutputRemember : ℚ) / 10 := by
  unfold completeAutoTune
  simp only [stop_output, setTunings_manualOutputRemember,
    apply_ite (fun p : PIDState => p.manualOutputRemember), ite_self]

theorem complete_isTuning (s : PIDState) : (completeAutoTune s).isTuning = false := by
  unfold completeAutoTune
  simp only [stop_isTuning]

theorem complete_outMin (s : PIDState) : (completeAutoTune s).outMin = s.outMin := by
  unfold completeAutoTune
  simp only [stop_outMin, setTunings_outMin,
    apply_ite (fun p : PIDState => p.outMin), ite_self]

theorem complete_outMax (s : PIDState) : (completeAutoTune s).outMax = s.outMax := by
  unfold completeAutoTune
  simp only [stop_outMax, setTunings_outMax,
    apply_ite (fun p : PIDState => p.outMax), ite_self]

/-! The state that a tuner step leaves behind is never `AUTOTUNE_OFF`: the
step itself only ever switches between the live and terminal states. -/

theorem setOut_state (s : PIDState) : (atuneSetOutput s).state = s.state := by
  unfold atuneSetOutput
  simp only [apply_ite (fun p : PIDState => p.state), ite_self]

theorem peaks_state (s : PIDState) (n : ℕ) (r : ℚ) (b1 b2 : Bool) :
    (atunePeaks s n r b1 b2).1.state = s.state := by
  unfold atunePeaks
  simp only [apply_ite (fun p : PIDState => p.state), ite_self]

theorem term_state (pl : ℚ → ℚ → ℚ) (s : PIDState) (a : ℚ) :
    (atuneTerminal pl s a).1.state = s.state := by
  unfold atuneTerminal atuneFinish
  simp only [apply_ite (fun p : PIDState × Bool => p.1.state),
    apply_ite (fun p : PIDState => p.state), ite_self]

theorem relay_state_ne (s : PIDState) (h : ¬ s.state = AUTOTUNE_OFF) :
    ¬ (atuneRelaySwitch s).state = AUTOTUNE_OFF := by
  unfold atuneRelaySwitch
  split_ifs <;> simp_all [AUTOTUNE_RELAY_STEP_DOWN, AUTOTUNE_RELAY_STEP_UP, AUTOTUNE_OFF]

theorem steady_state_ne (s : PIDState) (a b : ℤ) (h : ¬ s.state = AUTOTUNE_OFF) :
    ¬ (atuneSteady s a b).state = AUTOTUNE_OFF := by
  unfold atuneSteady
  simp only [apply_ite (fun p : PIDState => p.state)]
  split_ifs <;>
    simp_all [AUTOTUNE_STEADY_STATE_AFTER_STEP_UP, AUTOTUNE_FAILED,
      AUTOTUNE_RELAY_STEP_DOWN, AUTOTUNE_OFF]

theorem fail_state_ne (s : PIDState) (n : ℕ) (h : ¬ s.state = AUTOTUNE_OFF) :
    ¬ (atuneFailCheck s n).state = AUTOTUNE_OFF := by
  unfold atuneFailCheck
  split_ifs <;> simp_all [AUTOTUNE_FAILED, AUTOTUNE_OFF]

theorem init_state_ne (s : PIDState) (now : ℕ) :
    ¬ (atuneInit s now).state = AUTOTUNE_OFF := by
  unfold atuneInit
  simp only [apply_ite (fun p : PIDState => p.state)]
  split_ifs <;> decide

set_option maxHeartbeats 1000000 in
/-- After any tuner step the stored state is a live or terminal state,
never `AUTOTUNE_OFF`. -/
theorem autoTune_state_ne (pl : ℚ → ℚ → ℚ) (s : PIDState) :
    ¬ (autoTune pl s).1.state = AUTOTUNE_OFF := by
  by_cases h : s.state = AUTOTUNE_OFF
  · have hrel := relay_state_ne (atuneInit s s.lastTime)
      (init_state_ne s s.lastTime)
    unfold autoTune
    simp only [if_pos h, apply_ite (fun p : PIDState × Bool => p.1.state),
      apply_ite (fun p : PIDState => p.state), term_state, peaks_state,
      setOut_state, ite_self]
    split_ifs <;>
      first
      | decide
      | exact hrel
      | exact steady_state_ne _ _ _ hrel
      | (apply fail_state_ne;
         simp only [apply_ite (fun p : PIDState => p.state), peaks_state,
           setOut_state];
         first
         | decide
         | exact hrel)
  · have hrel := relay_state_ne s h
    unfold autoTune
    simp only [if_neg h, apply_ite (fun p : PIDState × Bool => p.1.state),
      apply_ite (fun p : PIDState => p.state), term_state, peaks_state,
      setOut_state, ite_self]
    split_ifs <;>
      first
      | decide
      | exact hrel
      | exact steady_state_ne _ _ _ hrel
      | (apply fail_state_ne;
         simp only [apply_ite (fun p : PIDState => p.state), peaks_state,
           setOut_state];
         first
         | decide
         | exact hrel)

/-! ## Claim C6, amended: the step clamp of `startAutoTune` and the tuning
invariant. -/

/-- The two chained step clamps of `startAutoTune` (part_004 lines 612-618),
on the raw one-decimal values. -/
def stepClamp (st out oMin oMax : ℤ) : ℤ :=
  let step1 := if st > out - oMin then out - oMin else st
  if step1 > oMax - out then oMax - out else step1

theorem stepClamp_bounds {st out oMin oMax : ℤ} (hst : 0 ≤ st)
    (h1 : oMin ≤ out) (h2 : out ≤ oMax) :
    0 ≤ stepClamp st out oMin oMax ∧
    stepClamp st out oMin oMax ≤ out - oMin ∧
    stepClamp st out oMin oMax ≤ oMax - out := by
  simp only [stepClamp]
  split_ifs <;> omega

/-- The invariant maintained across a tuning run: the limits are ordered, the
remembered manual command is inside them, and the relay levels (either the
pending `output`/`oStep` pair before the initializing tick, or the working
`outputStart`/`workingOstep` pair afterwards) as well as the current output
stay within the limits widened by the one-decimal rounding slack 1/10. -/
def tuningInv (s : PIDState) : Prop :=
  s.isTuning = true ∧
  s.outMin ≤ s.outMax ∧
  s.outMin ≤ (s.manualOutputRemember : ℚ) / 10 ∧
  (s.manualOutputRemember : ℚ) / 10 ≤ s.outMax ∧
  (s.state = AUTOTUNE_OFF →
    0 ≤ s.oStep ∧
    s.outMin - 1 / 10 ≤ s.output - s.oStep ∧
    s.output + s.oStep ≤ s.outMax + 1 / 10) ∧
  (¬ s.state = AUTOTUNE_OFF →
    0 ≤ s.workingOstep ∧
    s.outMin - 1 / 10 ≤ s.outputStart - s.workingOstep ∧
    s.outputStart + s.workingOstep ≤ s.outMax + 1 / 10 ∧
    s.outMin - 1 / 10 ≤ s.output ∧
    s.output ≤ s.outMax + 1 / 10)

theorem tuningInv_bounds (s : PIDState) (h : tuningInv s) :
    s.outMin - 1 / 10 ≤ s.output ∧ s.output ≤ s.outMax + 1 / 10 := by
  obtain ⟨_, _, _, _, hoff, hrun⟩ := h
  by_cases hS : s.state = AUTOTUNE_OFF
  · obtain ⟨h0, hb1, hb2⟩ := hoff hS
    constructor <;> linarith
  · obtain ⟨h0, hb1, hb2, hb3, hb4⟩ := hrun hS
    exact ⟨hb3, hb4⟩

theorem startAutoTune_establishes (s : PIDState) (method : ℕ)
    (st noise look : ℤ) (hmm : s.outMin ≤ s.outMax)
    (h1 : s.outMin ≤ s.output) (h2 : s.output ≤ s.outMax) (hst : 0 ≤ st)
    (hm1 : s.outMin ≤ (s.manualOutput : ℚ) / 10)
    (hm2 : (s.manualOutput : ℚ) / 10 ≤ s.outMax) :
    tuningInv (startAutoTune s method st noise look) := by
  obtain ⟨hs0, hs1, hs2⟩ :=
    stepClamp_bounds hst (makeDec1_mono h1) (makeDec1_mono h2)
  have hc0 : (0 : ℚ) ≤
      (stepClamp st (makeDec1 s.output) (makeDec1 s.outMin) (makeDec1 s.outMax) : ℚ) := by
    exact_mod_cast hs0
  have hc1 :
      (stepClamp st (makeDec1 s.output) (makeDec1 s.outMin) (makeDec1 s.outMax) : ℚ) ≤
      (makeDec1 s.output : ℚ) - (makeDec1 s.outMin : ℚ) := by
    exact_mod_cast hs1
  have hc2 :
      (stepClamp st (makeDec1 s.output) (makeDec1 s.outMin) (makeDec1 s.outMax) : ℚ) ≤
      (makeDec1 s.outMax : ℚ) - (makeDec1 s.output : ℚ) := by
    exact_mod_cast hs2
  have hq1 := makeDec1_le s.output
  have hq2 := le_makeDec1 s.output
  have hq3 := le_makeDec1 s.outMin
  have hq5 := makeDec1_le s.outMax
  unfold tuningInv
  refine ⟨rfl, ?_, ?_, ?_, ?_, ?_⟩
  · show s.outMin ≤ s.outMax
    exact hmm
  · show s.outMin ≤ (s.manualOutput : ℚ) / 10
    exact hm1
  · show (s.manualOutput : ℚ) / 10 ≤ s.outMax
    exact hm2
  · intro _
    refine ⟨?_, ?_, ?_⟩
    · show (0 : ℚ) ≤
        (stepClamp st (makeDec1 s.output) (makeDec1 s.outMin) (makeDec1 s.outMax) : ℚ) / 10
      linarith
    · show s.outMin - 1 / 10 ≤ s.output -
        (stepClamp st (makeDec1 s.output) (makeDec1 s.outMin) (makeDec1 s.outMax) : ℚ) / 10
      linarith
    · show s.output +
        (stepClamp st (makeDec1 s.output) (makeDec1 s.outMin) (makeDec1 s.outMax) : ℚ) / 10 ≤
        s.outMax + 1 / 10
      linarith
  · intro hc
    exact absurd rfl hc

/-- On a due tick with the tuner engaged, `compute` runs the tuner step and,
when the step reports done, the completion handler. -/
theorem compute_tuning_eq (pl : ℚ → ℚ → ℚ) (s : PIDState) (now : ℕ)
    (hT : s.isTuning = true) (hdue : ¬ now - s.lastTime < s.sampleTime.toNat) :
    compute pl s now =
      (if (autoTune pl { s with lastTime := now }).2 = true then
        completeAutoTune
          { (autoTune pl { s with lastTime := now }).1 with isTuning := false }
      else (autoTune pl { s with lastTime := now }).1) := by
  simp only [compute]
  rw [if_neg hdue]
  simp only [hT, if_true]

theorem compute_notdue_eq (pl : ℚ → ℚ → ℚ) (s : PIDState) (now : ℕ)
    (hdue : now - s.lastTime < s.sampleTime.toNat) :
    compute pl s now = s := by
  simp only [compute]
  rw [if_pos hdue]

theorem compute_clamp_nontuning (pl : ℚ → ℚ → ℚ) (s : PIDState) (now : ℕ)
    (ht : s.isTuning = false) (hmm : s.outMin ≤ s.outMax)
    (h1 : s.outMin ≤ s.output) (h2 : s.output ≤ s.outMax) :
    s.outMin ≤ (compute pl s now).output ∧ (compute pl s now).output ≤ s.outMax := by
  unfold compute
  simp only [apply_ite (fun p : PIDState => p.output)]
  split_ifs with hdue htun hr2 hman
  · exact ⟨h1, h2⟩
  · exact absurd htun (by simp [ht])
  · exact absurd htun (by simp [ht])
  · exact ⟨h1, h2⟩
  · exact limit_mem _ _ hmm

theorem compute_preserves_inv (pl : ℚ → ℚ → ℚ) (s : PIDState) (now : ℕ)
    (hinv : tuningInv s) :
    tuningInv (compute pl s now) ∨
      ((compute pl s now).isTuning = false ∧
       (compute pl s now).outMin ≤ (compute pl s now).output ∧
       (compute pl s now).output ≤ (compute pl s now).outMax) := by
  by_cases hdue : now - s.lastTime < s.sampleTime.toNat
  · left
    rw [compute_notdue_eq pl s now hdue]
    exact hinv
  · obtain ⟨hT, hMM, hman1, hman2, hoff, hrun⟩ := hinv
    rw [compute_tuning_eq pl s now hT hdue]
    by_cases hdone : (autoTune pl { s with lastTime := now }).2 = true
    · right
      rw [if_pos hdone]
      refine ⟨complete_isTuning _, ?_, ?_⟩
      · simp only [complete_outMin, complete_output, autoTune_outMin,
          autoTune_manualOutputRemember]
        exact hman1
      · simp only [complete_outMax, complete_output, autoTune_outMax,
          autoTune_manualOutputRemember]
        exact hman2
    · left
      rw [if_neg hdone]
      unfold tuningInv
      refine ⟨?_, ?_, ?_, ?_, ?_, ?_⟩
      · rw [autoTune_isTuning]
        exact hT
      · rw [autoTune_outMin, autoTune_outMax]
        exact hMM
      · rw [autoTune_outMin, autoTune_manualOutputRemember]
        exact hman1
      · rw [autoTune_outMax, autoTune_manualOutputRemember]
        exact hman2
      · intro hoffState
        exact absurd hoffState (autoTune_state_ne pl _)
      · intro _
        by_cases hS : s.state = AUTOTUNE_OFF
        · obtain ⟨hstep0, hb1, hb2⟩ := hoff hS
          have hS1 : ({ s with lastTime := now } : PIDState).state = AUTOTUNE_OFF := hS
          have hws := autoTune_workingOstep_init pl { s with lastTime := now } hS1
          have hos := autoTune_outputStart_init pl { s with lastTime := now } hS1
          have hw := autoTune_write_init pl { s with lastTime := now } hS1
          refine ⟨?_, ?_, ?_, ?_, ?_⟩
          · rw [hws]
            exact hstep0
          · rw [autoTune_outMin, hos, hws]
            exact hb1
          · rw [hos, hws, autoTune_outMax]
            exact hb2
          · rcases hw with hw | hw | hw <;> rw [autoTune_outMin, hw]
            · show s.outMin - 1 / 10 ≤ s.output + s.oStep
              linarith
            · show s.outMin - 1 / 10 ≤ s.output - s.oStep
              exact hb1
            · show s.outMin - 1 / 10 ≤ s.output
              linarith
          · rcases hw with hw | hw | hw <;> rw [autoTune_outMax, hw]
            · show s.output + s.oStep ≤ s.outMax + 1 / 10
              exact hb2
            · show s.output - s.oStep ≤ s.outMax + 1 / 10
              linarith
            · show s.output ≤ s.outMax + 1 / 10
              linarith
        · obtain ⟨hstep0, hb1, hb2, hb3, hb4⟩ := hrun hS
          have hS1 : ¬ ({ s with lastTime := now } : PIDState).state = AUTOTUNE_OFF := hS
          have hws := autoTune_workingOstep pl { s with lastTime := now } hS1
          have hos := autoTune_outputStart pl { s with lastTime := now } hS1
          have hw := autoTune_write pl { s with lastTime := now } hS1
          refine ⟨?_, ?_, ?_, ?_, ?_⟩
          · rw [hws]
            exact hstep0
          · rw [autoTune_outMin, hos, hws]
            exact hb1
          · rw [hos, hws, autoTune_outMax]
            exact hb2
          · rcases hw with hw | hw | hw | hw <;> rw [autoTune_outMin, hw]
            · show s.outMin - 1 / 10 ≤ s.outputStart + s.workingOstep
              linarith
            · show s.outMin - 1 / 10 ≤ s.outputStart - s.workingOstep
              exact hb1
            · show s.outMin - 1 / 10 ≤ s.outputStart
              linarith
            · show s.outMin - 1 / 10 ≤ s.output
              exact hb3
          · rcases hw with hw | hw | hw | hw <;> rw [autoTune_outMax, hw]
            · show s.outputStart + s.workingOstep ≤ s.outMax + 1 / 10
              exact hb2
            · show s.outputStart - s.workingOstep ≤ s.outMax + 1 / 10
              linarith
            · show s.outputStart ≤ s.outMax + 1 / 10
              linarith
            · show s.output ≤ s.outMax + 1 / 10
              exact hb4

/-- Claim C6, amended: the unconditional form "the value written to output
lies within [outputMin, outputMax]" fails on relay ticks (see the
counterexample), because `startAutoTune` sizes the relay step against the
output and the limits rounded to one decimal.  What the code does guarantee:
(1) outside tuning, a `compute` starting within the limits always writes a
value within the limits (exact clamping); (2) `startAutoTune`, invoked with
a nonnegative step request, an in-bounds output and an in-bounds remembered
manual command, establishes the tuning invariant `tuningInv`; (3) every
`compute` preserves `tuningInv` (or ends the run with the output restored
inside the limits), and under it the output stays within the limits widened
by the one-decimal rounding slack 1/10. -/
theorem output_clamp_amended :
    (∀ (pl : ℚ → ℚ → ℚ) (s : PIDState) (now : ℕ),
      s.isTuning = false → s.outMin ≤ s.outMax →
      s.outMin ≤ s.output → s.output ≤ s.outMax →
      s.outMin ≤ (compute pl s now).output ∧
        (compute pl s now).output ≤ s.outMax) ∧
    (∀ (s : PIDState) (method : ℕ) (st noise look : ℤ),
      s.outMin ≤ s.outMax → s.outMin ≤ s.output → s.output ≤ s.outMax →
      0 ≤ st →
      s.outMin ≤ (s.manualOutput : ℚ) / 10 →
      (s.manualOutput : ℚ) / 10 ≤ s.outMax →
      tuningInv (startAutoTune s method st noise look)) ∧
    (∀ (pl : ℚ → ℚ → ℚ) (s : PIDState) (now : ℕ),
      tuningInv s →
      (tuningInv (compute pl s now) ∨
        ((compute pl s now).isTuning = false ∧
         (compute pl s now).outMin ≤ (compute pl s now).output ∧
         (compute pl s now).output ≤ (compute pl s now).outMax)) ∧
      (compute pl s now).outMin - 1 / 10 ≤ (compute pl s now).output ∧
      (compute pl s now).output ≤ (compute pl s now).outMax + 1 / 10) := by
  refine ⟨fun pl s now ht hmm h1 h2 =>
      compute_clamp_nontuning pl s now ht hmm h1 h2,
    fun s m st n l hmm h1 h2 hst hm1 hm2 =>
      startAutoTune_establishes s m st n l hmm h1 h2 hst hm1 hm2,
    fun pl s now hinv => ?_⟩
  have hpres := compute_preserves_inv pl s now hinv
  refine ⟨hpres, ?_⟩
  rcases hpres with hp | ⟨_, hp1, hp2⟩
  · exact tuningInv_bounds _ hp
  · constructor <;> linarith

unseal Rat.add Rat.mul Rat.sub Rat.inv Rat.ofScientific in
/-- Witness for the amended claim: from the running controller of the
counterexample scenario, `startAutoTune` establishes the invariant, and the
relay tick that overshoots the limit still stays within the 1/10 slack. -/
theorem output_clamp_amended_witness :
    tuningInv (startAutoTune roundSlipState ZIEGLER_NICHOLS_PID 1000 500 10) ∧
    ((compute pl0 (startAutoTune roundSlipState ZIEGLER_NICHOLS_PID 1000 500 10)
        1000).outMin - 1 / 10 ≤
      (compute pl0 (startAutoTune roundSlipState ZIEGLER_NICHOLS_PID 1000 500 10)
        1000).output ∧
     (compute pl0 (startAutoTune roundSlipState ZIEGLER_NICHOLS_PID 1000 500 10)
        1000).output ≤
      (compute pl0 (startAutoTune roundSlipState ZIEGLER_NICHOLS_PID 1000 500 10)
        1000).outMax + 1 / 10) := by
  have hb := output_clamp_amended.2.1 roundSlipState ZIEGLER_NICHOLS_PID 1000 500 10
    (by decide) (by decide) (by decide) (by decide) (by decide) (by decide)
  exact ⟨hb, (output_clamp_amended.2.2 pl0
    (startAutoTune roundSlipState ZIEGLER_NICHOLS_PID 1000 500 10) 1000 hb).2⟩

end OsPID
